import Mathlib

/-!
Verification development for the `ic-http-auth` HTTP message-signature and
delegation verification engine.

The definitions below are a shallow embedding of the Rust source:
  * `src/packages/ic-http-auth/src/parse_utils.rs` — the nom parsers for the
    three signature headers;
  * `src/packages/ic-http-auth/src/base64.rs` — URL-safe unpadded base64
    decoding (the `base64` crate with `URL_SAFE_NO_PAD`);
  * `src/packages/ic-http-auth/src/http_signature.rs` — header extraction,
    canonical payload construction, outer ECDSA signature verification, and
    the orchestrating entry point `validate_http_signature_headers`;
  * `src/packages/ic-http-auth/src/delegation.rs` — the one-hop delegation
    chain validator `validate_delegation_and_get_principal`;
  * `src/examples/todo-app/src/backend/src/root_key.rs` (byte-identical copy
    in `src/packages/ic-http-auth/src/bench/canister/root_key.rs`) — the DER
    root-key extraction `extract_raw_root_pk_from_der`.

Modelling conventions:
  * Byte strings are `List Nat` (each entry a byte value), text is `String`.
  * Rust `Result` plus the possibility of a `panic!` (an `unwrap` on an error)
    is the three-valued `Res`: `ok`, `err`, or `panic`. A `panic` outcome
    marks exactly the places where the source calls `unwrap()` on a value
    that can be an error.
  * External crates that the source calls (serde_json, ic-canister-sig-creation,
    ic-signature-verification, candid principals) are abstracted as fields of
    the `Ext` structure, so theorems quantify over their behaviour; the p256
    crate primitives `Signature::from_slice` and
    `PublicKey::from_public_key_der` / `to_public_key_der` are modelled
    concretely (SPKI envelope with an uncompressed SEC1 point that must lie on
    the P-256 curve), because several claims turn on whether key bytes are in
    DER form. The model covers uncompressed points, the only form the
    re-serializer `to_public_key_der` emits.
  * `HttpRequest.get_path` / `get_query` of the `ic-http-certification` crate
    are modelled by total accessors `path` / `query` on the request record, as
    the specification treats them (method/path/query "accessors" of a request
    handed in by the surrounding service).
-/

set_option maxRecDepth 20000

deriving instance DecidableEq for Except

namespace HttpAuth

/-! ## Rust-side whitespace and low-level string scanning (parse_utils.rs) -/

/-- The whitespace characters of `parse_utils.rs::whitespace`: `" \t\r\n"`. -/
def isRustWs (c : Char) : Bool :=
  c == ' ' || c == '\t' || c == '\r' || c == '\n'

/-- `take_while` over the whitespace set, i.e. what `trim_whitespace` skips. -/
def skipWs : List Char → List Char
  | [] => []
  | c :: r => if isRustWs c then skipWs r else c :: r

/-- nom `terminated(take_until(tag), tag)` for a one-character tag: everything
before the first occurrence of `c`, and everything after it; `none` when `c`
does not occur. -/
def splitAtFirst (c : Char) : List Char → Option (List Char × List Char)
  | [] => none
  | a :: rest =>
    if a = c then some ([], rest)
    else
      match splitAtFirst c rest with
      | some (pre, post) => some (a :: pre, post)
      | none => none

/-- `drop_separators(':', ':', take_until(":"))`: skip whitespace, expect `:`,
take everything until the next `:`, consume it, return (payload, remainder). -/
def parseColonWrapped (l : List Char) : Except String (List Char × List Char) :=
  match skipWs l with
  | ':' :: r =>
    match splitAtFirst ':' r with
    | some (payload, rest) => .ok (payload, rest)
    | none => .error "nom error: take_until"
  | _ => .error "nom error: char"

/-- `parse_http_sig` on the character list: `label=:payload:` with a trailing
`eof` check; returns (label characters, payload characters). -/
def parseHttpSigChars (l : List Char) : Except String (List Char × List Char) :=
  match splitAtFirst '=' l with
  | none => .error "nom error: take_until equals"
  | some (sigName, rest) =>
    match parseColonWrapped rest with
    | .error e => .error e
    | .ok (sig, rest2) =>
      if rest2 = [] then .ok (sigName, sig) else .error "nom error: eof"

/-- `parse_utils.rs::parse_http_sig`. -/
def parseHttpSig (s : String) : Except String (String × String) :=
  match parseHttpSigChars s.data with
  | .error e => .error e
  | .ok (n, p) => .ok (String.mk n, String.mk p)

/-- `parse_utils.rs::parse_http_sig_key` — its body is the same grammar as
`parse_http_sig` (the source duplicates the function). -/
def parseHttpSigKey (s : String) : Except String (String × String) :=
  parseHttpSig s

/-- `many0(drop_separators('"', '"', take_until("\"")))` with fuel: each quoted
component is collected, whitespace before each quote is skipped, and an
opening quote with no closing quote is a hard failure (nom `cut`). The fuel
only guards the recursion; each iteration consumes at least two characters,
so `length + 1` units of fuel can never run out. -/
def parseQuotedElemsF : Nat → List Char → Except String (List (List Char) × List Char)
  | 0, _ => .error "nom error: fuel"
  | fuel + 1, l =>
    match skipWs l with
    | '"' :: r =>
      match splitAtFirst '"' r with
      | some (content, rest) =>
        match parseQuotedElemsF fuel rest with
        | .ok (es, rem) => .ok (content :: es, rem)
        | .error e => .error e
      | none => .error "nom error: unterminated quote"
    | _ => .ok ([], l)

/-- The quoted-component list of a `signature-input` value. -/
def parseQuotedElems (l : List Char) : Except String (List (List Char) × List Char) :=
  parseQuotedElemsF (l.length + 1) l

/-- `drop_separators('(', ')', many0(...))` applied to the params substring:
whitespace, `(`, the quoted components, whitespace, `)`; anything after the
closing parenthesis is left unconsumed (the source has no `eof` here). -/
def parseSigParamsChars (sigParams : List Char) : Except String (List (List Char)) :=
  match skipWs sigParams with
  | '(' :: r =>
    match parseQuotedElems r with
    | .error e => .error e
    | .ok (elems, rem) =>
      match skipWs rem with
      | ')' :: _ => .ok elems
      | _ => .error "nom error: close paren"
  | _ => .error "nom error: open paren"

/-- `parse_utils.rs::parse_http_sig_input` on characters: split at the first
`=`; the raw params are the whole remainder (returned verbatim, including
anything after the closing parenthesis); parse `( "c1" "c2" ... )` out of it.
Returns (label, raw params, components). -/
def parseHttpSigInputChars (l : List Char) :
    Except String (List Char × List Char × List (List Char)) :=
  match splitAtFirst '=' l with
  | none => .error "nom error: take_until equals"
  | some (sigName, sigParams) =>
    match parseSigParamsChars sigParams with
    | .error e => .error e
    | .ok elems => .ok (sigName, sigParams, elems)

/-- `parse_utils.rs::parse_http_sig_input`. -/
def parseHttpSigInput (s : String) : Except String (String × String × List String) :=
  match parseHttpSigInputChars s.data with
  | .error e => .error e
  | .ok (n, ps, es) => .ok (String.mk n, String.mk ps, es.map String.mk)

/-! ## URL-safe unpadded base64 (base64.rs, crate `base64` `URL_SAFE_NO_PAD`) -/

/-- Value of one character of the URL-safe base64 alphabet. -/
def b64Val (c : Char) : Option Nat :=
  if 'A' ≤ c ∧ c ≤ 'Z' then some (c.toNat - 65)
  else if 'a' ≤ c ∧ c ≤ 'z' then some (c.toNat - 97 + 26)
  else if '0' ≤ c ∧ c ≤ '9' then some (c.toNat - 48 + 52)
  else if c = '-' then some 62
  else if c = '_' then some 63
  else none

/-- URL-safe unpadded base64 decoding, as the `base64` crate configures it:
no padding characters, length `≡ 1 (mod 4)` is invalid, and the unused
trailing bits of the last symbol must be zero. -/
def base64DecodeChars : List Char → Except String (List Nat)
  | [] => .ok []
  | [_] => .error "InvalidLength"
  | [a, b] =>
    match b64Val a, b64Val b with
    | some va, some vb =>
      if vb % 16 = 0 then .ok [va * 4 + vb / 16] else .error "InvalidLastSymbol"
    | _, _ => .error "InvalidByte"
  | [a, b, c] =>
    match b64Val a, b64Val b, b64Val c with
    | some va, some vb, some vc =>
      if vc % 4 = 0 then .ok [va * 4 + vb / 16, vb % 16 * 16 + vc / 4]
      else .error "InvalidLastSymbol"
    | _, _, _ => .error "InvalidByte"
  | a :: b :: c :: d :: rest =>
    match b64Val a, b64Val b, b64Val c, b64Val d with
    | some va, some vb, some vc, some vd =>
      match base64DecodeChars rest with
      | .ok tail =>
        .ok ((va * 4 + vb / 16) :: (vb % 16 * 16 + vc / 4) :: (vc % 4 * 64 + vd) :: tail)
      | .error e => .error e
    | _, _, _, _ => .error "InvalidByte"

/-- `base64.rs::base64_decode`. -/
def base64Decode (s : String) : Except String (List Nat) :=
  base64DecodeChars s.data

/-! ## Parsing a u64 (Rust `str::parse::<u64>` used for `Delegation::expiration`) -/

/-- Digits of a Rust unsigned integer literal, with the 64-bit overflow check. -/
def parseU64Digits (l : List Char) : Option Nat :=
  if l = [] then none
  else if l.all (fun c => c.isDigit) then
    let v := l.foldl (fun a c => a * 10 + (c.toNat - 48)) 0
    if v < 2 ^ 64 then some v else none
  else none

/-- Rust `u64::from_str`: an optional leading `+`, then decimal digits. -/
def parseU64 (s : String) : Option Nat :=
  match s.data with
  | '+' :: rest => parseU64Digits rest
  | l => parseU64Digits l

/-! ## Root-key extraction (root_key.rs) -/

/-- `IC_ROOT_PK_DER_PREFIX`, the fixed 37-byte DER algorithm-identifier head. -/
def icRootPkDerPrefixBytes : List Nat :=
  [0x30, 0x81, 0x82, 0x30, 0x1d, 0x06, 0x0d, 0x2b, 0x06, 0x01, 0x04, 0x01,
   0x82, 0xdc, 0x7c, 0x05, 0x03, 0x01, 0x02, 0x01, 0x06, 0x0c, 0x2b, 0x06,
   0x01, 0x04, 0x01, 0x82, 0xdc, 0x7c, 0x05, 0x03, 0x02, 0x01, 0x03, 0x61,
   0x00]

/-- `IC_ROOT_PK_LENGTH`. -/
def icRootPkLength : Nat := 96

/-- `root_key.rs::extract_raw_root_pk_from_der`. -/
def extractRawRootPkFromDer (pkDer : List Nat) : Except String (List Nat) :=
  let expectedLength := icRootPkDerPrefixBytes.length + icRootPkLength
  if pkDer.length ≠ expectedLength then .error "invalid root pk length"
  else if pkDer.take icRootPkDerPrefixBytes.length ≠ icRootPkDerPrefixBytes then
    .error "invalid OID"
  else .ok (pkDer.drop icRootPkDerPrefixBytes.length)

/-! ## p256 primitives used by verify_sig (crate `p256`) -/

/-- The P-256 base field modulus. -/
def p256FieldP : Nat :=
  0xffffffff00000001000000000000000000000000ffffffffffffffffffffffff

/-- The P-256 curve coefficient b (the a coefficient is -3 mod p). -/
def p256CoeffB : Nat :=
  0x5ac635d8aa3a93e7b3ebbd55769886bc651d06b0cc53b0f63bce3c3e27d2604b

/-- The order of the P-256 group (the scalar bound of `Signature::from_slice`). -/
def p256GroupOrder : Nat :=
  0xffffffff00000000ffffffffffffffffbce6faada7179e84f3b9cac2fc632551

/-- Big-endian bytes to a natural number. -/
def bytesToNat (l : List Nat) : Nat :=
  l.foldl (fun acc b => acc * 256 + b) 0

/-- A natural number as 32 big-endian bytes. -/
def natToBytes32 (n : Nat) : List Nat :=
  (List.range 32).map (fun i => n / 256 ^ (31 - i) % 256)

/-- The affine point (x, y) lies on P-256: y² = x³ - 3x + b over the field. -/
def p256OnCurve (x y : Nat) : Prop :=
  x < p256FieldP ∧ y < p256FieldP ∧
    y * y % p256FieldP = (x * x * x + (p256FieldP - 3) * x + p256CoeffB) % p256FieldP

instance (x y : Nat) : Decidable (p256OnCurve x y) := by
  unfold p256OnCurve; infer_instance

/-- The fixed 26-byte SubjectPublicKeyInfo head for an uncompressed P-256 key:
SEQUENCE, AlgorithmIdentifier (id-ecPublicKey, prime256v1), BIT STRING of 66
bytes with 0 unused bits. -/
def p256SpkiPrefixBytes : List Nat :=
  [0x30, 0x59, 0x30, 0x13, 0x06, 0x07, 0x2a, 0x86, 0x48, 0xce, 0x3d, 0x02,
   0x01, 0x06, 0x08, 0x2a, 0x86, 0x48, 0xce, 0x3d, 0x03, 0x01, 0x07, 0x03,
   0x42, 0x00]

/-- `p256::PublicKey::from_public_key_der` for uncompressed keys: the input
must be the 91-byte SPKI envelope — the fixed head, the SEC1 uncompressed tag
4, then the 32-byte coordinates — and the point must lie on the curve. -/
def publicKeyFromDer (der : List Nat) : Option (Nat × Nat) :=
  if der.length = 91 ∧ der.take 27 = p256SpkiPrefixBytes ++ [4] then
    let x := bytesToNat ((der.drop 27).take 32)
    let y := bytesToNat (der.drop 59)
    if p256OnCurve x y then some (x, y) else none
  else none

/-- `p256::PublicKey::to_public_key_der`: re-serialize the key as the SPKI
envelope around the uncompressed SEC1 point. -/
def publicKeyToDer (k : Nat × Nat) : List Nat :=
  p256SpkiPrefixBytes ++ 4 :: (natToBytes32 k.1 ++ natToBytes32 k.2)

/-- `p256::ecdsa::Signature::from_slice`: exactly 64 bytes, split into the big-
endian scalars r and s, each nonzero and below the group order. -/
def signatureFromSlice (sig : List Nat) : Option (Nat × Nat) :=
  if sig.length = 64 then
    let r := bytesToNat (sig.take 32)
    let s := bytesToNat (sig.drop 32)
    if 0 < r ∧ r < p256GroupOrder ∧ 0 < s ∧ s < p256GroupOrder then some (r, s)
    else none
  else none

/-! ## Data model (http_signature.rs, delegation.rs) -/

/-- `delegation.rs::Delegation` as deserialized from JSON: `pubKey` and
`expiration` arrive as strings (base64 text and a decimal u64). -/
structure Delegation where
  pub_key : String
  expiration : String
  targets : Option (List (List Nat))
deriving DecidableEq, Repr

/-- `delegation.rs::SignedDelegation`. -/
structure SignedDelegation where
  delegation : Delegation
  sig : String
deriving DecidableEq, Repr

/-- `delegation.rs::DelegationChain`. -/
structure DelegationChain where
  pub_key : String
  delegations : List SignedDelegation
deriving DecidableEq, Repr

/-- `http_signature.rs::SignatureKeyHeader`: the decoded `signature-key`
payload. `pub_key` is the byte string the JSON field `pubKey` base64-decodes
to. -/
structure SignatureKeyHeader where
  pub_key : List Nat
  delegation_chain : Option DelegationChain
deriving DecidableEq, Repr

/-- `ic_canister_sig_creation::CanisterSigPublicKey`, reduced to what the
validator reads from it: the embedded canister id and its DER serialization. -/
structure CanisterSigPublicKey where
  canister_id : List Nat
  der : List Nat
deriving DecidableEq, Repr

/-- The variants of `error.rs::HttpAuthError` the verification path produces. -/
inductive HttpAuthError where
  | MissingSignatureHeader
  | MissingSignatureInputHeader
  | MissingSignatureKeyHeader
  | JwtSignatureVerificationFailed (msg : String)
  | MalformedHttpSig (msg : String)
  | MalformedHttpSigInput (msg : String)
  | MalformedHttpSigKey (msg : String)
  | MissingHeaderField (field : String)
  | MalformedEcdsaPublicKey
  | MalformedEcdsaSignature
deriving DecidableEq, Repr

/-- A Rust `Result` together with the third outcome the source can produce: a
process panic from `unwrap()` on an error value. -/
inductive Res (ε α : Type) where
  | ok (a : α)
  | err (e : ε)
  | panic (msg : String)
deriving DecidableEq, Repr

/-- The request as the engine consumes it: method, path, optional query and
the ordered header list. -/
structure HttpRequest where
  method : String
  path : String
  query : Option String
  headers : List (String × String)
deriving DecidableEq, Repr

/-- The behaviour of the external crates the engine calls, abstracted so that
theorems hold for every implementation of them:
`serde_json::from_slice::<SignatureKeyHeader>`,
`CanisterSigPublicKey::try_from` and its `to_der` (folded into the structure),
`Principal::from_text`, `Principal` display, `DELEGATION_SIG_DOMAIN`,
`delegation_signature_msg`, `ic_signature_verification::verify_canister_sig`,
and `Principal::self_authenticating`. -/
structure Ext where
  jsonParseSigKey : List Nat → Except String SignatureKeyHeader
  ecdsaVerify : String → Nat × Nat → Nat × Nat → Bool
  csPkTryFrom : List Nat → Except String CanisterSigPublicKey
  principalFromText : String → Except String (List Nat)
  principalToText : List Nat → String
  delegationSigDomain : List Nat
  delegationSigMsg : List Nat → Nat → Option (List (List Nat)) → List Nat
  verifyCanisterSig : List Nat → List Nat → List Nat → List Nat → Except String Unit
  selfAuthenticating : List Nat → List Nat

/-! ## Header lookup and canonical payload (http_signature.rs) -/

/-- `http_signature.rs::find_header`: the first header whose name equals the
key, by exact string equality. -/
def findHeader (headers : List (String × String)) (key : String) : Option String :=
  match headers.find? (fun kv => kv.1 == key) with
  | some kv => some kv.2
  | none => none

/-- ASCII uppercase of one character (what Rust `to_uppercase` does on the
ASCII method tokens the request carries). -/
def charUpper (c : Char) : Char :=
  if 'a' ≤ c ∧ c ≤ 'z' then Char.ofNat (c.toNat - 32) else c

/-- ASCII uppercase of a string. -/
def strUpper (s : String) : String :=
  String.mk (s.data.map charUpper)

/-- The value a component identifier resolves to in `calculate_http_sig`:
`@method`, `@path` and `@query` are derived from the request, anything else is
the request header of that exact name, whose absence is
`MissingHeaderField`. -/
def componentValue (req : HttpRequest) (reqHeaders : List (String × String))
    (elem : String) : Res HttpAuthError String :=
  if elem = "@method" then .ok (strUpper req.method)
  else if elem = "@path" then .ok req.path
  else if elem = "@query" then
    .ok (match req.query with | some q => "?" ++ q | none => "")
  else
    match findHeader reqHeaders elem with
    | some v => .ok v
    | none => .err (.MissingHeaderField elem)

/-- The accumulating loop of `calculate_http_sig`: one line
`"<identifier>": <value>\n` per component, then the trailer line
`"@signature-params": <raw params>\n`. -/
def calculateHttpSigGo (req : HttpRequest) (reqHeaders : List (String × String))
    (httpSigInput : String) : List String → String → Res HttpAuthError String
  | [], acc => .ok (acc ++ "\"@signature-params\": " ++ httpSigInput ++ "\n")
  | elem :: rest, acc =>
    match componentValue req reqHeaders elem with
    | .ok value =>
      calculateHttpSigGo req reqHeaders httpSigInput rest
        (acc ++ "\"" ++ elem ++ "\": " ++ value ++ "\n")
    | .err e => .err e
    | .panic m => .panic m

/-- `http_signature.rs::calculate_http_sig`. The payload is kept as the
`String` the source builds (the source returns its UTF-8 bytes; the encoding
is injective, so equalities of payloads are unaffected). -/
def calculateHttpSig (req : HttpRequest) (reqHeaders : List (String × String))
    (httpSigInput : String) (elems : List String) : Res HttpAuthError String :=
  calculateHttpSigGo req reqHeaders httpSigInput elems ""

/-- Concatenation of a list of strings (used by the specification-side payload
description). -/
def concatAll : List String → String
  | [] => ""
  | s :: rest => s ++ concatAll rest

/-- Written from the specification (§4.2): the value a component identifier
resolves to — `@method` is the upper-cased request method, `@path` the request
path, `@query` the `?`-prefixed query string if present and the empty string
otherwise, and any other identifier the request header of that name, `none`
when absent. Used only to compare the source payload builder against the
specification text. -/
def specComponentValue (req : HttpRequest) (elem : String) : Option String :=
  if elem = "@method" then some (strUpper req.method)
  else if elem = "@path" then some req.path
  else if elem = "@query" then
    some (match req.query with | some q => "?" ++ q | none => "")
  else findHeader req.headers elem

/-- Written from the specification (§4.2): the canonical payload is, for each
identifier in list order, the line `"<identifier>": <value>\n`, followed by
the trailer line `"@signature-params": <raw-params-string>\n` with the
verbatim params substring; the first identifier that does not resolve is a
`MissingHeaderField` failure naming it. -/
def canonicalPayloadSpec (req : HttpRequest) (rawParams : String)
    (elems : List String) : Res HttpAuthError String :=
  match elems.find? (fun e => (specComponentValue req e).isNone) with
  | some e => .err (.MissingHeaderField e)
  | none =>
    .ok (concatAll (elems.map fun e =>
          "\"" ++ e ++ "\": " ++ (specComponentValue req e).getD "" ++ "\n") ++
        ("\"@signature-params\": " ++ rawParams ++ "\n"))

/-! ## Signature verification and header extraction (http_signature.rs) -/

/-- `http_signature.rs::verify_sig`. The source maps a key-decoding failure to
`MalformedEcdsaPublicKey` and then calls `unwrap()` on that result, so a key
that does not decode from DER is a panic, not an error value. -/
def verifySig (E : Ext) (payload : String) (sig publicKey : List Nat) :
    Res HttpAuthError Unit :=
  match signatureFromSlice sig with
  | none => .err .MalformedEcdsaSignature
  | some s =>
    match publicKeyFromDer publicKey with
    | none => .panic "Result::unwrap on an Err value: MalformedEcdsaPublicKey"
    | some pk =>
      if E.ecdsaVerify payload s pk then .ok ()
      else .err (.JwtSignatureVerificationFailed "signature error")

/-- `SignatureKeyHeader::signature_pub_key_der`: decode the carried key from
DER (an `unwrap`-backed panic when it does not decode) and re-serialize it. -/
def signaturePubKeyDer (hdr : SignatureKeyHeader) : Res HttpAuthError (List Nat) :=
  match publicKeyFromDer hdr.pub_key with
  | none => .panic "Result::unwrap on an Err value: MalformedEcdsaPublicKey"
  | some pk => .ok (publicKeyToDer pk)

/-- `http_signature.rs::get_http_sig_bytes`. -/
def getHttpSigBytes (reqHeaders : List (String × String)) :
    Res HttpAuthError (List Nat) :=
  match findHeader reqHeaders "signature" with
  | none => .err .MissingSignatureHeader
  | some sigHeaderStr =>
    match parseHttpSig sigHeaderStr with
    | .error e => .err (.MalformedHttpSig e)
    | .ok (_, httpSig) =>
      match base64Decode httpSig with
      | .error e => .err (.MalformedHttpSig e)
      | .ok bytes => .ok bytes

/-- `SignatureKeyHeader::try_from(&[HeaderField])`. -/
def signatureKeyHeaderTryFrom (E : Ext) (headers : List (String × String)) :
    Res HttpAuthError SignatureKeyHeader :=
  match findHeader headers "signature-key" with
  | none => .err .MissingSignatureKeyHeader
  | some s =>
    match parseHttpSigKey s with
    | .error e => .err (.MalformedHttpSigKey e)
    | .ok (_, httpSigKey) =>
      match base64Decode httpSigKey with
      | .error e => .err (.MalformedHttpSigKey e)
      | .ok sigKeyBytes =>
        match E.jsonParseSigKey sigKeyBytes with
        | .error e => .err (.MalformedHttpSigKey e)
        | .ok hdr => .ok hdr

/-- `http_signature.rs::get_http_sig_input_payload`. -/
def getHttpSigInputPayload (req : HttpRequest)
    (reqHeaders : List (String × String)) : Res HttpAuthError String :=
  match findHeader reqHeaders "signature-input" with
  | none => .err .MissingSignatureInputHeader
  | some s =>
    match parseHttpSigInput s with
    | .error e => .err (.MalformedHttpSigInput e)
    | .ok (_, httpSigInput, elems) =>
      calculateHttpSig req reqHeaders httpSigInput elems

/-! ## Delegation chain validation (delegation.rs) -/

/-- `delegation.rs::msg_with_domain`. -/
def msgWithDomain (sep bytes : List Nat) : List Nat :=
  sep.length % 256 :: (sep ++ bytes)

/-- `delegation.rs::validate_delegation_and_get_principal`. The base64 decodes
of the delegation fields and the `expiration` parse are `unwrap()`ed in the
source, so their failures are panics; the structural and cryptographic checks
return `Err` strings. The source performs no comparison between
`delegation.pub_key` and the key that verified the outer signature. -/
def validateDelegationAndGetPrincipal (E : Ext) (delegationChain : DelegationChain)
    (iiCanisterId : String) (icRootPublicKeyRaw : List Nat) :
    Res String (List Nat) :=
  if h : delegationChain.delegations.length ≠ 1 then
    .err "Expected exactly one signed delegation"
  else
    let signedDelegation := delegationChain.delegations.get ⟨0, by omega⟩
    match base64Decode signedDelegation.sig with
    | .error _ => .panic "Result::unwrap on an Err value: base64 sig"
    | .ok delegationSig =>
      match base64Decode signedDelegation.delegation.pub_key with
      | .error _ => .panic "Result::unwrap on an Err value: base64 delegation pubKey"
      | .ok delegationPubKey =>
        match base64Decode delegationChain.pub_key with
        | .error _ => .panic "Result::unwrap on an Err value: base64 chain pubKey"
        | .ok pubKey =>
          match E.csPkTryFrom pubKey with
          | .error e => .err ("Invalid publicKey in delegation chain: " ++ e)
          | .ok csPk =>
            match E.principalFromText iiCanisterId with
            | .error e => .err ("Invalid ii_canister_id: " ++ e)
            | .ok expectedIiCanisterId =>
              if csPk.canister_id ≠ expectedIiCanisterId then
                .err ("Delegation signing canister " ++ E.principalToText csPk.canister_id
                  ++ " does not match II canister id "
                  ++ E.principalToText expectedIiCanisterId)
              else
                match parseU64 signedDelegation.delegation.expiration with
                | none => .panic "Result::unwrap on an Err value: expiration parse"
                | some expiration =>
                  let message := msgWithDomain E.delegationSigDomain
                    (E.delegationSigMsg delegationPubKey expiration
                      signedDelegation.delegation.targets)
                  match extractRawRootPkFromDer icRootPublicKeyRaw with
                  | .error e => .err e
                  | .ok icRootPublicKey =>
                    match E.verifyCanisterSig message delegationSig csPk.der
                        icRootPublicKey with
                    | .error e => .err ("Invalid canister signature: " ++ e)
                    | .ok _ => .ok (E.selfAuthenticating pubKey)

/-! ## The entry point (http_signature.rs::validate_http_signature_headers) -/

/-- `validate_http_signature_headers`: extract the three headers (signature
bytes first, then the signature-key header, then the canonical payload),
verify the outer signature, then either validate the delegation chain (its
`Err` is `unwrap()`ed — a panic) or derive the self-authenticating principal
from the DER re-encoding of the carried key. -/
def validateHttpSignatureHeaders (E : Ext) (req : HttpRequest)
    (icRootKeyRaw : List Nat) : Res HttpAuthError (List Nat) :=
  match getHttpSigBytes req.headers with
  | .err e => .err e
  | .panic m => .panic m
  | .ok signature =>
    match signatureKeyHeaderTryFrom E req.headers with
    | .err e => .err e
    | .panic m => .panic m
    | .ok signatureKeyHeader =>
      match getHttpSigInputPayload req req.headers with
      | .err e => .err e
      | .panic m => .panic m
      | .ok payload =>
        match verifySig E payload signature signatureKeyHeader.pub_key with
        | .err e => .err e
        | .panic m => .panic m
        | .ok _ =>
          match signatureKeyHeader.delegation_chain with
          | some delegationChain =>
            match validateDelegationAndGetPrincipal E delegationChain
                "rdmx6-jaaaa-aaaaa-aaadq-cai" icRootKeyRaw with
            | .ok principal => .ok principal
            | .err _ => .panic "Result::unwrap on an Err value: delegation validation"
            | .panic m => .panic m
          | none =>
            match signaturePubKeyDer signatureKeyHeader with
            | .ok publicKeyDer => .ok (E.selfAuthenticating publicKeyDer)
            | .err e => .err e
            | .panic m => .panic m

/-! ## Concrete fixtures used by witnesses -/

/-- URL-safe base64 of a 64-byte signature with r = s = 1 (a well-formed
`Signature::from_slice` input). -/
def sigB64 : String :=
  "AAAAAAAAAAAAAAAAAAAAAAAAAAAAAAAAAAAAAAAAAAEAAAAAAAAAAAAAAAAAAAAAAAAAAAAAAAAAAAAAAAAAAQ"

/-- x-coordinate of the P-256 base point. -/
def gX : Nat := 0x6b17d1f2e12c4247f8bce6e563a440f277037d812deb33a0f4a13945d898c296

/-- y-coordinate of the P-256 base point. -/
def gY : Nat := 0x4fe342e2fe1a7f9b8ee7eb4a7c0f9e162bce33576b315ececbb6406837bf51f5

/-- The base point in DER (SPKI) form. -/
def gDer : List Nat := publicKeyToDer (gX, gY)

/-- The base point as a raw, non-DER SEC1 uncompressed point. -/
def rawPointG : List Nat := 4 :: (natToBytes32 gX ++ natToBytes32 gY)

/-- A delegation chain of length one whose delegation-embedded public key
(base64 `BQYH`, bytes [5, 6, 7]) differs from every key fixture above. -/
def delegChainOne : DelegationChain :=
  ⟨"AQID", [⟨⟨"BQYH", "123", none⟩, "AQ"⟩]⟩

/-- A syntactically valid 133-byte DER root key (prefix + 96 zero bytes). -/
def rootKeyDer133 : List Nat := icRootPkDerPrefixBytes ++ List.replicate 96 0

/-- A concrete serde_json model: a handful of marker byte strings map to fixed
`SignatureKeyHeader` values, everything else is a JSON parse error. -/
def testSigKeyTable (b : List Nat) : Except String SignatureKeyHeader :=
  if b = [1] then .ok ⟨gDer, none⟩
  else if b = [2] then .ok ⟨gDer, some ⟨"AQID", []⟩⟩
  else if b = [3] then .ok ⟨gDer, some delegChainOne⟩
  else if b = [4] then .ok ⟨[7], none⟩
  else if b = [5] then .ok ⟨rawPointG, none⟩
  else .error "json parse failed"

/-- A concrete instantiation of the external crates, used to evaluate the
pipeline at concrete inputs: the ECDSA and canister-signature checks accept
everything, principals are byte strings, `self_authenticating` is the
identity. -/
def testExt : Ext where
  jsonParseSigKey := testSigKeyTable
  ecdsaVerify := fun _ _ _ => true
  csPkTryFrom := fun b => if b = [1, 2, 3] then .ok ⟨[10], [20]⟩ else .error "bad cs pk"
  principalFromText := fun s =>
    if s = "rdmx6-jaaaa-aaaaa-aaadq-cai" then .ok [10] else .error "bad principal text"
  principalToText := fun _ => "principal"
  delegationSigDomain := [1]
  delegationSigMsg := fun pk _ _ => pk
  verifyCanisterSig := fun _ _ _ _ => .ok ()
  selfAuthenticating := fun b => b

/-- Like `testExt` but the ECDSA check rejects everything — used to show that
an outcome does not depend on the cryptographic primitives. -/
def testExtAlt : Ext :=
  { testExt with
    ecdsaVerify := fun _ _ _ => false
    verifyCanisterSig := fun _ _ _ _ => .error "bad canister signature" }

/-- A request whose first three headers are the signature, signature-input
and signature-key headers with the given values, before any other headers.
Used to state how the verification outcome depends on the labels inside those
values. -/
def mkSigReq (m p : String) (q : Option String) (hs : List (String × String))
    (v1 v2 v3 : String) : HttpRequest :=
  ⟨m, p, q,
    ("signature", v1) :: ("signature-input", v2) :: ("signature-key", v3) :: hs⟩

/-- The 64-byte signature fixture `sigB64` decodes to: r = s = 1. -/
def sigBytes64 : List Nat :=
  List.replicate 31 0 ++ [1] ++ List.replicate 31 0 ++ [1]

/-- A well-formed header triple whose `signature-key` body is the marker byte
string that `testSigKeyTable` maps to a fixed header value. -/
def mkSigHeaders (sigKeyB64 : String) : List (String × String) :=
  [("signature", "sig1=:" ++ sigB64 ++ ":"),
   ("signature-input", "sig1=(\"@method\" \"@path\")"),
   ("signature-key", "sig1=:" ++ sigKeyB64 ++ ":")]

/-- A request carrying the DER key `gDer` and no delegation chain. -/
def reqDirect : HttpRequest := ⟨"get", "/items", none, mkSigHeaders "AQ"⟩

/-- A request carrying the DER key `gDer` and the one-hop chain
`delegChainOne`, whose delegation-embedded key differs from `gDer`. -/
def reqDeleg : HttpRequest := ⟨"get", "/items", none, mkSigHeaders "Aw"⟩

/-- A request whose `signature-key` public key bytes `[7]` are not a DER
public key. -/
def reqBadKey : HttpRequest := ⟨"get", "/items", none, mkSigHeaders "BA"⟩

/-- A request whose `signature-key` public key is the *raw* SEC1 point
`rawPointG` rather than its DER wrapping. -/
def reqRawKey : HttpRequest := ⟨"get", "/items", none, mkSigHeaders "BQ"⟩

/-- The canonical payload of `req10a` below: its component list names the
`signature` header itself, so the payload embeds that header's full value,
label included. -/
def payload10 : String :=
  "\"signature\": sigA=:" ++ sigB64 ++ ":\n" ++
    "\"@signature-params\": (\"signature\")\n"

/-- Like `testExt` but with an ECDSA check that accepts exactly the payload
`payload10` (any honest ECDSA verifier pins the payload bytes this way). -/
def testExtC10 : Ext :=
  { testExt with ecdsaVerify := fun payload _ _ => payload == payload10 }

/-- A request whose `signature-input` lists the `signature` header as a signed
component; its signature header carries the label `sigA`. -/
def req10a : HttpRequest :=
  ⟨"get", "/x", none,
    [("signature", "sigA=:" ++ sigB64 ++ ":"),
     ("signature-input", "si=(\"signature\")"),
     ("signature-key", "sk=:AQ:")]⟩

/-- `req10a` with the signature header's label changed to `sigB` — the only
byte difference between the two requests. -/
def req10b : HttpRequest :=
  ⟨"get", "/x", none,
    [("signature", "sigB=:" ++ sigB64 ++ ":"),
     ("signature-input", "si=(\"signature\")"),
     ("signature-key", "sk=:AQ:")]⟩

/-- Two requests that differ only in the label of their `signature-input`
header value (the component list and params substring are byte-identical). -/
def req8a : HttpRequest :=
  ⟨"get", "/x", none, [("signature-input", "sigA=(\"@method\")")]⟩

/-- See `req8a`: the same request with a different `signature-input` label. -/
def req8b : HttpRequest :=
  ⟨"get", "/x", none, [("signature-input", "sigB=(\"@method\")")]⟩

/-! ## Helper lemmas -/

theorem strAppend_data (s t : String) : (s ++ t).data = s.data ++ t.data := rfl

theorem strAppend_left_cancel {a s t : String} (h : a ++ s = a ++ t) : s = t := by
  have h2 : a.data ++ s.data = a.data ++ t.data := by
    simpa [strAppend_data] using congrArg String.data h
  exact String.ext (List.append_cancel_left h2)

theorem strAppend_right_cancel {s t a : String} (h : s ++ a = t ++ a) : s = t := by
  have h2 : s.data ++ a.data = t.data ++ a.data := by
    simpa [strAppend_data] using congrArg String.data h
  exact String.ext (List.append_cancel_right h2)

theorem strAppend_assoc (a b c : String) : a ++ b ++ c = a ++ (b ++ c) := by
  apply String.ext
  simp [strAppend_data, List.append_assoc]

theorem splitAtFirst_append {c : Char} {a : List Char} (b : List Char)
    (h : c ∉ a) : splitAtFirst c (a ++ c :: b) = some (a, b) := by
  induction a with
  | nil => simp [splitAtFirst]
  | cons x xs ih =>
    have hx : x ≠ c := fun hxc => h (hxc ▸ List.mem_cons_self x xs)
    have hxs : c ∉ xs := fun hm => h (List.mem_cons_of_mem x hm)
    simp [splitAtFirst, hx, ih hxs]

theorem findHeader_cons_eq (k v : String) (t : List (String × String)) :
    findHeader ((k, v) :: t) k = some v := by
  simp [findHeader, List.find?]

theorem findHeader_cons_ne {name k : String} (v : String)
    (t : List (String × String)) (h : name ≠ k) :
    findHeader ((name, v) :: t) k = findHeader t k := by
  simp [findHeader, List.find?_cons, h]

theorem findHeader_mem {headers : List (String × String)} {k v : String}
    (h : findHeader headers k = some v) : (k, v) ∈ headers := by
  induction headers with
  | nil => simp [findHeader] at h
  | cons kv t ih =>
    by_cases hk : kv.1 = k
    · rw [show kv = (k, kv.2) from by rw [← hk], findHeader_cons_eq] at h
      simp only [Option.some.injEq] at h
      subst h
      rw [← hk]
      exact List.mem_cons_self kv t
    · rw [show kv = (kv.1, kv.2) from rfl, findHeader_cons_ne kv.2 t hk] at h
      exact List.mem_cons_of_mem _ (ih h)

theorem findHeader_first {pre : List (String × String)} (k v : String)
    (post : List (String × String)) (h : ∀ kv ∈ pre, kv.1 ≠ k) :
    findHeader (pre ++ (k, v) :: post) k = some v := by
  induction pre with
  | nil => exact findHeader_cons_eq k v post
  | cons kv t ih =>
    rw [List.cons_append, show kv = (kv.1, kv.2) from rfl,
      findHeader_cons_ne kv.2 _ (h kv (List.mem_cons_self kv t))]
    exact ih fun x hx => h x (List.mem_cons_of_mem kv hx)

/-! ## Claim theorems -/

/-- The branch structure of `extract_raw_root_pk_from_der` with the two
length constants evaluated. -/
theorem extractRawRootPkFromDer_eq (b : List Nat) :
    extractRawRootPkFromDer b =
      if b.length ≠ 133 then .error "invalid root pk length"
      else if b.take 37 ≠ icRootPkDerPrefixBytes then .error "invalid OID"
      else .ok (b.drop 37) := by
  have hpl : icRootPkDerPrefixBytes.length = 37 := by decide
  simp only [extractRawRootPkFromDer, hpl, icRootPkLength]

/-- Claim C6: `extract_raw_root_pk_from_der` succeeds exactly on a 133-byte
input whose first 37 bytes are the fixed DER prefix, in which case it returns
the trailing 96 bytes; any length or prefix mismatch fails; and (being a pure
function of its input) it is deterministic and idempotent. -/
theorem extract_root_key_exact (b : List Nat) :
    (extractRawRootPkFromDer b = .ok (b.drop 37) ↔
      b.length = 133 ∧ b.take 37 = icRootPkDerPrefixBytes) ∧
    (∀ k, extractRawRootPkFromDer b = .ok k →
      b.length = 133 ∧ b.take 37 = icRootPkDerPrefixBytes ∧
        k = b.drop 37 ∧ k.length = 96) ∧
    extractRawRootPkFromDer b = extractRawRootPkFromDer b := by
  rw [extractRawRootPkFromDer_eq]
  refine ⟨?_, ?_, rfl⟩
  · by_cases h1 : b.length = 133 <;> by_cases h2 : b.take 37 = icRootPkDerPrefixBytes <;>
      simp [h1, h2]
  · intro k hk
    split_ifs at hk with ha hb
    cases hk
    exact ⟨by omega, by simpa using hb, rfl, by rw [List.length_drop]; omega⟩

theorem strEmpty_append (s : String) : "" ++ s = s := by
  apply String.ext
  simp [strAppend_data]

theorem componentValue_spec_eq (req : HttpRequest) (e : String) :
    componentValue req req.headers e =
      match specComponentValue req e with
      | some v => .ok v
      | none => .err (.MissingHeaderField e) := by
  unfold componentValue specComponentValue
  split_ifs <;> rfl

/-- The accumulating loop of `calculate_http_sig` against the specification
shape: the first unresolvable component is the error, otherwise the payload is
the accumulator, the lines in order, and the trailer. -/
theorem calculateHttpSigGo_spec (req : HttpRequest) (raw : String) :
    ∀ (elems : List String) (acc : String),
      calculateHttpSigGo req req.headers raw elems acc =
        match elems.find? (fun e => (specComponentValue req e).isNone) with
        | some e => .err (.MissingHeaderField e)
        | none =>
          .ok (acc ++ (concatAll (elems.map fun e =>
                "\"" ++ e ++ "\": " ++ (specComponentValue req e).getD "" ++ "\n") ++
              ("\"@signature-params\": " ++ raw ++ "\n"))) := by
  intro elems
  induction elems with
  | nil =>
    intro acc
    simp only [calculateHttpSigGo, List.find?, List.map_nil, concatAll,
      strEmpty_append, strAppend_assoc]
  | cons e rest ih =>
    intro acc
    rw [calculateHttpSigGo, componentValue_spec_eq req e]
    cases hv : specComponentValue req e with
    | none =>
      simp only [List.find?, hv, Option.isNone_none]
    | some v =>
      simp only [List.find?, hv, Option.isNone_some, ih, List.map_cons, concatAll,
        Option.getD_some]
      cases rest.find? (fun e => (specComponentValue req e).isNone) with
      | some e2 => rfl
      | none => simp only [strAppend_assoc]

/-- Claim C5: `calculate_http_sig` builds exactly the payload the
specification describes — one `"<identifier>": <value>\n` line per component
in order, with `@method`/`@path`/`@query` derived from the request and other
identifiers looked up among the request headers (their absence being
`MissingHeaderField`), followed by the verbatim
`"@signature-params": <raw-params-string>\n` trailer. -/
theorem calculate_http_sig_matches_spec (req : HttpRequest) (rawParams : String)
    (elems : List String) :
    calculateHttpSig req req.headers rawParams elems =
      canonicalPayloadSpec req rawParams elems := by
  rw [calculateHttpSig, canonicalPayloadSpec, calculateHttpSigGo_spec]
  cases elems.find? (fun e => (specComponentValue req e).isNone) with
  | some e => rfl
  | none => rw [strEmpty_append]

/-- A successful payload is injective in the raw params string: with the same
request, headers and component list, two runs of the payload builder that
both succeed give equal payloads only when the raw params substrings are
equal (the trailer embeds them verbatim). -/
theorem calculateHttpSigGo_raw_inj (req : HttpRequest)
    (hs : List (String × String)) (raw1 raw2 : String) :
    ∀ (elems : List String) (acc out1 out2 : String),
      calculateHttpSigGo req hs raw1 elems acc = .ok out1 →
      calculateHttpSigGo req hs raw2 elems acc = .ok out2 →
      out1 = out2 → raw1 = raw2 := by
  intro elems
  induction elems with
  | nil =>
    intro acc out1 out2 h1 h2 heq
    simp only [calculateHttpSigGo, Res.ok.injEq] at h1 h2
    subst h1; subst h2
    have h3 := strAppend_right_cancel heq
    exact strAppend_left_cancel h3
  | cons e rest ih =>
    intro acc out1 out2 h1 h2 heq
    rw [calculateHttpSigGo] at h1 h2
    cases hv : componentValue req hs e with
    | ok v =>
      rw [hv] at h1 h2
      exact ih _ _ _ h1 h2 heq
    | err er => rw [hv] at h1; cases h1
    | panic m => rw [hv] at h1; cases h1

/-- Claim C8 (amended): two `signature-input` header values that parse to the
same component list but whose raw params substrings differ byte-for-byte
(for example, different internal whitespace inside the component list)
produce different canonical payloads whenever the payload builder succeeds. -/
theorem canonical_payload_sensitive_to_params_bytes (req : HttpRequest)
    (s1 s2 n1 n2 p1 p2 : String) (es : List String) (pl1 pl2 : String)
    (h1 : parseHttpSigInput s1 = .ok (n1, p1, es))
    (h2 : parseHttpSigInput s2 = .ok (n2, p2, es))
    (hne : p1 ≠ p2)
    (hc1 : calculateHttpSig req req.headers p1 es = .ok pl1)
    (hc2 : calculateHttpSig req req.headers p2 es = .ok pl2) :
    pl1 ≠ pl2 :=
  fun h => hne (calculateHttpSigGo_raw_inj req req.headers p1 p2 es "" pl1 pl2 hc1 hc2 h)

/-- Witness for the amended C8: the specification's own example — the same
component list written with and without extra internal whitespace — yields
two different payloads. -/
theorem canonical_payload_sensitive_to_params_bytes_witness :
    ("\"@method\": GET\n\"@signature-params\": (\"@method\")\n" : String) ≠
      "\"@method\": GET\n\"@signature-params\": ( \"@method\" )\n" :=
  canonical_payload_sensitive_to_params_bytes
    ⟨"get", "/x", none, []⟩
    "sig=(\"@method\")" "sig=( \"@method\" )" "sig" "sig"
    "(\"@method\")" "( \"@method\" )" ["@method"]
    "\"@method\": GET\n\"@signature-params\": (\"@method\")\n"
    "\"@method\": GET\n\"@signature-params\": ( \"@method\" )\n"
    (by decide) (by decide) (by decide) (by decide) (by decide)

/-- Counterexample to C8 as stated: two byte-different `signature-input`
values that are semantically equal because they differ only in the discarded
label (`sigA` vs `sigB`) produce the *same* canonical payload, so a signature
over one verifies against the other. -/
theorem canonicalization_label_only_difference_same_payload :
    req8a.headers ≠ req8b.headers ∧
    parseHttpSigInput "sigA=(\"@method\")" =
      .ok ("sigA", "(\"@method\")", ["@method"]) ∧
    parseHttpSigInput "sigB=(\"@method\")" =
      .ok ("sigB", "(\"@method\")", ["@method"]) ∧
    getHttpSigInputPayload req8a req8a.headers =
      getHttpSigInputPayload req8b req8b.headers := by decide

/-- Claim C4: a delegation chain whose length is not exactly one is rejected
with the structural error, and the outcome is the same under every behaviour
of the external cryptographic primitives — no decoding or signature check can
influence it (the length check comes first). -/
theorem delegation_single_hop (E E2 : Ext) (chain : DelegationChain)
    (ii : String) (root : List Nat) (h : chain.delegations.length ≠ 1) :
    validateDelegationAndGetPrincipal E chain ii root =
      .err "Expected exactly one signed delegation" ∧
    validateDelegationAndGetPrincipal E chain ii root =
      validateDelegationAndGetPrincipal E2 chain ii root := by
  unfold validateDelegationAndGetPrincipal
  rw [dif_pos h, dif_pos h]
  exact ⟨rfl, rfl⟩

/-- Witness for C4 at a zero-length chain, with two different instantiations
of the cryptographic primitives. -/
theorem delegation_single_hop_witness :
    validateDelegationAndGetPrincipal testExt ⟨"AQID", []⟩ "ii" [] =
      .err "Expected exactly one signed delegation" ∧
    validateDelegationAndGetPrincipal testExt ⟨"AQID", []⟩ "ii" [] =
      validateDelegationAndGetPrincipal testExtAlt ⟨"AQID", []⟩ "ii" [] :=
  delegation_single_hop testExt testExtAlt ⟨"AQID", []⟩ "ii" [] (by decide)

/-- Claim C9: the three signature headers are mandatory, each absence being
its own named error (in the processing order of the source: the signature
bytes first, then the signature-key header, then the signature-input payload),
and each header's grammar-parse failure is its own named error carrying the
diagnostic string. -/
theorem mandatory_headers_distinct_errors (E : Ext) (req : HttpRequest)
    (root : List Nat) :
    (findHeader req.headers "signature" = none →
      validateHttpSignatureHeaders E req root = .err .MissingSignatureHeader) ∧
    (∀ sb, getHttpSigBytes req.headers = .ok sb →
      findHeader req.headers "signature-key" = none →
      validateHttpSignatureHeaders E req root = .err .MissingSignatureKeyHeader) ∧
    (∀ sb hdr, getHttpSigBytes req.headers = .ok sb →
      signatureKeyHeaderTryFrom E req.headers = .ok hdr →
      findHeader req.headers "signature-input" = none →
      validateHttpSignatureHeaders E req root = .err .MissingSignatureInputHeader) ∧
    (∀ s e, findHeader req.headers "signature" = some s →
      parseHttpSig s = .error e →
      validateHttpSignatureHeaders E req root = .err (.MalformedHttpSig e)) ∧
    (∀ sb s e, getHttpSigBytes req.headers = .ok sb →
      findHeader req.headers "signature-key" = some s →
      parseHttpSigKey s = .error e →
      validateHttpSignatureHeaders E req root = .err (.MalformedHttpSigKey e)) ∧
    (∀ sb hdr s e, getHttpSigBytes req.headers = .ok sb →
      signatureKeyHeaderTryFrom E req.headers = .ok hdr →
      findHeader req.headers "signature-input" = some s →
      parseHttpSigInput s = .error e →
      validateHttpSignatureHeaders E req root = .err (.MalformedHttpSigInput e)) := by
  refine ⟨?_, ?_, ?_, ?_, ?_, ?_⟩
  · intro h
    have hg : getHttpSigBytes req.headers = .err .MissingSignatureHeader := by
      simp only [getHttpSigBytes, h]
    simp only [validateHttpSignatureHeaders, hg]
  · intro sb hsb h
    have hk : signatureKeyHeaderTryFrom E req.headers = .err .MissingSignatureKeyHeader := by
      simp only [signatureKeyHeaderTryFrom, h]
    simp only [validateHttpSignatureHeaders, hsb, hk]
  · intro sb hdr hsb hkey h
    have hi : getHttpSigInputPayload req req.headers = .err .MissingSignatureInputHeader := by
      simp only [getHttpSigInputPayload, h]
    simp only [validateHttpSignatureHeaders, hsb, hkey, hi]
  · intro s e hs he
    have hg : getHttpSigBytes req.headers = .err (.MalformedHttpSig e) := by
      simp only [getHttpSigBytes, hs, he]
    simp only [validateHttpSignatureHeaders, hg]
  · intro sb s e hsb hs he
    have hk : signatureKeyHeaderTryFrom E req.headers = .err (.MalformedHttpSigKey e) := by
      simp only [signatureKeyHeaderTryFrom, hs, he]
    simp only [validateHttpSignatureHeaders, hsb, hk]
  · intro sb hdr s e hsb hkey hs he
    have hi : getHttpSigInputPayload req req.headers = .err (.MalformedHttpSigInput e) := by
      simp only [getHttpSigInputPayload, hs, he]
    simp only [validateHttpSignatureHeaders, hsb, hkey, hi]

/-- Counterexample to C3 as stated: `find_header` compares names by exact
string equality, so a header named `Signature` — equal to `signature` up to
case, as the shared uppercasing shows — is not found, and a request carrying
only such a header is rejected as missing the signature header. -/
theorem find_header_not_case_insensitive :
    strUpper "Signature" = strUpper "signature" ∧
    findHeader [("Signature", "v")] "signature" = none ∧
    validateHttpSignatureHeaders testExt ⟨"get", "/x", none, [("Signature", "v")]⟩ [] =
      .err .MissingSignatureHeader := by decide

/-- Claim C3 (amended): header lookup matches names by exact, case-sensitive
string equality — it returns a value only for a header whose name equals the
key byte-for-byte — and when several headers carry that exact name the first
in list order wins. The same `findHeader` is the lookup used for the three
signature headers and for named components of the canonical payload. -/
theorem find_header_exact_first_match (headers : List (String × String))
    (k : String) :
    (∀ v, findHeader headers k = some v → (k, v) ∈ headers) ∧
    (∀ pre post v, headers = pre ++ (k, v) :: post → (∀ kv ∈ pre, kv.1 ≠ k) →
      findHeader headers k = some v) := by
  constructor
  · intro v h
    exact findHeader_mem h
  · intro pre post v hsplit hpre
    subst hsplit
    exact findHeader_first k v post hpre

/-- Counterexample to C7 as stated: a genuinely valid *raw* (non-DER) P-256
public key — the SEC1 uncompressed base point — is not usable as the
`signature-key` public key: the verifier DER-decodes `pubKey`, a raw key
fails that decoding (and the source then panics on its `unwrap`), while the
same point wrapped in the DER SPKI envelope is exactly what decodes. -/
theorem raw_public_key_not_usable :
    publicKeyFromDer rawPointG = none ∧
    publicKeyFromDer (p256SpkiPrefixBytes ++ rawPointG) = some (gX, gY) ∧
    validateHttpSignatureHeaders testExt reqRawKey rootKeyDer133 =
      .panic "Result::unwrap on an Err value: MalformedEcdsaPublicKey" := by decide

/-- Claim C7 (amended): the `signature-key` public key is carried in DER
(SPKI) form: the outer signature is checked against the key obtained by
DER-decoding `pubKey`, and when no delegation chain is present the identity
is the self-authenticating principal of that key's DER re-serialization. -/
theorem der_public_key_flow (E : Ext) (req : HttpRequest) (root sb : List Nat)
    (hdr : SignatureKeyHeader) (payload : String) (s pk : Nat × Nat)
    (h1 : getHttpSigBytes req.headers = .ok sb)
    (h2 : signatureKeyHeaderTryFrom E req.headers = .ok hdr)
    (h3 : getHttpSigInputPayload req req.headers = .ok payload)
    (h4 : signatureFromSlice sb = some s)
    (h5 : publicKeyFromDer hdr.pub_key = some pk)
    (h6 : E.ecdsaVerify payload s pk = true)
    (h7 : hdr.delegation_chain = none) :
    validateHttpSignatureHeaders E req root =
      .ok (E.selfAuthenticating (publicKeyToDer pk)) := by
  have hv : verifySig E payload sb hdr.pub_key = .ok () := by
    simp only [verifySig, h4, h5, h6, if_true]
  have hd : signaturePubKeyDer hdr = .ok (publicKeyToDer pk) := by
    simp only [signaturePubKeyDer, h5]
  simp only [validateHttpSignatureHeaders, h1, h2, h3, hv, h7, hd]

/-- Witness for the amended C7: the concrete direct-signature request carrying
`gDer` yields the self-authenticating principal of the DER re-encoding. -/
theorem der_public_key_flow_witness :
    validateHttpSignatureHeaders testExt reqDirect rootKeyDer133 =
      .ok (testExt.selfAuthenticating (publicKeyToDer (gX, gY))) :=
  der_public_key_flow testExt reqDirect rootKeyDer133 sigBytes64
    ⟨gDer, none⟩
    "\"@method\": GET\n\"@path\": /items\n\"@signature-params\": (\"@method\" \"@path\")\n"
    (1, 1) (gX, gY)
    (by decide) (by decide) (by decide) (by decide) (by decide) (by decide) (by decide)

/-- Claim C2 is a code bug: the verifier can panic instead of returning an
error. When the carried public key bytes do not decode from DER, `verify_sig`
maps the failure to `MalformedEcdsaPublicKey` and then `unwrap()`s that very
result — a panic, reached whenever the signature bytes themselves parse. -/
theorem malformed_public_key_panics (E : Ext) (req : HttpRequest)
    (root sb : List Nat) (hdr : SignatureKeyHeader) (payload : String)
    (s : Nat × Nat)
    (h1 : getHttpSigBytes req.headers = .ok sb)
    (h2 : signatureKeyHeaderTryFrom E req.headers = .ok hdr)
    (h3 : getHttpSigInputPayload req req.headers = .ok payload)
    (h4 : signatureFromSlice sb = some s)
    (h5 : publicKeyFromDer hdr.pub_key = none) :
    validateHttpSignatureHeaders E req root =
      .panic "Result::unwrap on an Err value: MalformedEcdsaPublicKey" := by
  have hv : verifySig E payload sb hdr.pub_key =
      .panic "Result::unwrap on an Err value: MalformedEcdsaPublicKey" := by
    simp only [verifySig, h4, h5]
  simp only [validateHttpSignatureHeaders, h1, h2, h3, hv]

/-- Witness for the C2 code bug: a concrete request whose `signature-key`
public key bytes are `[7]` panics inside `verify_sig`. -/
theorem malformed_public_key_panics_witness :
    validateHttpSignatureHeaders testExt reqBadKey rootKeyDer133 =
      .panic "Result::unwrap on an Err value: MalformedEcdsaPublicKey" :=
  malformed_public_key_panics testExt reqBadKey rootKeyDer133 sigBytes64
    ⟨[7], none⟩
    "\"@method\": GET\n\"@path\": /items\n\"@signature-params\": (\"@method\" \"@path\")\n"
    (1, 1)
    (by decide) (by decide) (by decide) (by decide) (by decide)

/-- Claim C1 is a code bug: the session-key binding check that both the
specification and the source's own doc comment require
(`delegations[0].pubkey` equals the challenge) is not implemented —
`validate_delegation_and_get_principal` does not even receive the outer
signature's key. Under the hypotheses below (which nowhere relate the
delegation-embedded key `dpk` to the signature key `hdr.pub_key`, and which
include the explicit mismatch `dpk ≠ hdr.pub_key`) request verification
nevertheless succeeds. -/
theorem delegation_not_bound_to_session_key (E : Ext) (req : HttpRequest)
    (root sb : List Nat) (hdr : SignatureKeyHeader) (payload : String)
    (s pk : Nat × Nat) (chain : DelegationChain) (sd : SignedDelegation)
    (dsig dpk cpk : List Nat) (cspk : CanisterSigPublicKey)
    (expected : List Nat) (expv : Nat) (rk : List Nat)
    (h1 : getHttpSigBytes req.headers = .ok sb)
    (h2 : signatureKeyHeaderTryFrom E req.headers = .ok hdr)
    (h3 : getHttpSigInputPayload req req.headers = .ok payload)
    (h4 : signatureFromSlice sb = some s)
    (h5 : publicKeyFromDer hdr.pub_key = some pk)
    (h6 : E.ecdsaVerify payload s pk = true)
    (h7 : hdr.delegation_chain = some chain)
    (h8 : chain.delegations = [sd])
    (h9 : base64Decode sd.sig = .ok dsig)
    (h10 : base64Decode sd.delegation.pub_key = .ok dpk)
    (h11 : base64Decode chain.pub_key = .ok cpk)
    (h12 : E.csPkTryFrom cpk = .ok cspk)
    (h13 : E.principalFromText "rdmx6-jaaaa-aaaaa-aaadq-cai" = .ok expected)
    (h14 : cspk.canister_id = expected)
    (h15 : parseU64 sd.delegation.expiration = some expv)
    (h16 : extractRawRootPkFromDer root = .ok rk)
    (h17 : E.verifyCanisterSig
      (msgWithDomain E.delegationSigDomain
        (E.delegationSigMsg dpk expv sd.delegation.targets))
      dsig cspk.der rk = .ok ())
    (hbind : dpk ≠ hdr.pub_key) :
    validateHttpSignatureHeaders E req root =
      .ok (E.selfAuthenticating cpk) := by
  have hv : verifySig E payload sb hdr.pub_key = .ok () := by
    simp only [verifySig, h4, h5, h6, if_true]
  obtain ⟨cpks, delegs⟩ := chain
  simp only at h8
  subst h8
  have hlen : ¬(DelegationChain.delegations ⟨cpks, [sd]⟩).length ≠ 1 := by simp
  have hdel : validateDelegationAndGetPrincipal E ⟨cpks, [sd]⟩
      "rdmx6-jaaaa-aaaaa-aaadq-cai" root = .ok (E.selfAuthenticating cpk) := by
    rw [validateDelegationAndGetPrincipal, dif_neg hlen]
    simp only [List.get, h9, h10, h11, h12, h13, h14, ne_eq, not_true_eq_false,
      if_false, h15, h16, h17]
  simp only [validateHttpSignatureHeaders, h1, h2, h3, hv, h7, hdel]

/-- Witness for the C1 code bug: a concrete request whose delegation embeds
the key `[5, 6, 7]` (base64 `BQYH`) while the outer signature's key is the
91-byte `gDer` — the two differ, yet verification succeeds and returns the
delegated principal. -/
theorem delegation_not_bound_to_session_key_witness :
    validateHttpSignatureHeaders testExt reqDeleg rootKeyDer133 =
      .ok (testExt.selfAuthenticating [1, 2, 3]) :=
  delegation_not_bound_to_session_key testExt reqDeleg rootKeyDer133 sigBytes64
    ⟨gDer, some delegChainOne⟩
    "\"@method\": GET\n\"@path\": /items\n\"@signature-params\": (\"@method\" \"@path\")\n"
    (1, 1) (gX, gY) delegChainOne ⟨⟨"BQYH", "123", none⟩, "AQ"⟩
    [1] [5, 6, 7] [1, 2, 3] ⟨[10], [20]⟩ [10] 123 (List.replicate 96 0)
    (by decide) (by decide) (by decide) (by decide) (by decide) (by decide)
    (by decide) (by decide) (by decide) (by decide) (by decide) (by decide)
    (by decide) (by decide) (by decide) (by decide) (by decide) (by decide)

theorem strData_label (l r : String) : (l ++ "=" ++ r).data = l.data ++ '=' :: r.data := by
  rw [strAppend_data, strAppend_data, List.append_assoc]
  rfl

/-- `parse_http_sig` on a value `label=rest` with an `=`-free label: the label
is split off and the rest is parsed independently of it. -/
theorem parseHttpSig_label (l r : String) (hl : '=' ∉ l.data) :
    parseHttpSig (l ++ "=" ++ r) =
      match parseColonWrapped r.data with
      | .error e => .error e
      | .ok (sig, rest2) =>
        if rest2 = [] then .ok (l, String.mk sig) else .error "nom error: eof" := by
  simp only [parseHttpSig, parseHttpSigChars, strData_label, splitAtFirst_append _ hl]
  cases parseColonWrapped r.data with
  | error e => rfl
  | ok pr =>
    obtain ⟨sig, rest2⟩ := pr
    by_cases h : rest2 = [] <;> simp [h]

/-- `parse_http_sig_input` on a value `label=rest` with an `=`-free label:
the raw params substring is exactly `rest` and the component list is computed
from `rest` alone. -/
theorem parseHttpSigInput_label (l r : String) (hl : '=' ∉ l.data) :
    parseHttpSigInput (l ++ "=" ++ r) =
      match parseSigParamsChars r.data with
      | .error e => .error e
      | .ok elems => .ok (l, r, elems.map String.mk) := by
  simp only [parseHttpSigInput, parseHttpSigInputChars, strData_label,
    splitAtFirst_append _ hl]
  cases parseSigParamsChars r.data with
  | error e => rfl
  | ok elems => rfl

/-- Component resolution ignores the values of the three signature headers as
long as the component is none of their names: both requests resolve it from
the shared method/path/query or the shared tail of the header list. -/
theorem componentValue_skip_sig_headers (m p : String) (q : Option String)
    (hs : List (String × String)) (v1 v1s v2 v2s v3 v3s e : String)
    (he1 : e ≠ "signature") (he2 : e ≠ "signature-input")
    (he3 : e ≠ "signature-key") :
    componentValue (mkSigReq m p q hs v1 v2 v3) (mkSigReq m p q hs v1 v2 v3).headers e =
      componentValue (mkSigReq m p q hs v1s v2s v3s)
        (mkSigReq m p q hs v1s v2s v3s).headers e := by
  simp only [componentValue, mkSigReq]
  split_ifs <;> try rfl
  rw [findHeader_cons_ne _ _ (Ne.symm he1), findHeader_cons_ne _ _ (Ne.symm he2),
    findHeader_cons_ne _ _ (Ne.symm he3), findHeader_cons_ne _ _ (Ne.symm he1),
    findHeader_cons_ne _ _ (Ne.symm he2), findHeader_cons_ne _ _ (Ne.symm he3)]

/-- The payload loop is a congruence in the per-component resolution. -/
theorem calculateHttpSigGo_congr (req1 req2 : HttpRequest)
    (hs1 hs2 : List (String × String)) (raw : String) :
    ∀ (elems : List String),
      (∀ e ∈ elems, componentValue req1 hs1 e = componentValue req2 hs2 e) →
      ∀ acc, calculateHttpSigGo req1 hs1 raw elems acc =
        calculateHttpSigGo req2 hs2 raw elems acc := by
  intro elems
  induction elems with
  | nil => intro _ acc; rfl
  | cons e rest ih =>
    intro h acc
    rw [calculateHttpSigGo, calculateHttpSigGo, h e (List.mem_cons_self e rest)]
    cases componentValue req2 hs2 e with
    | ok v => exact ih (fun x hx => h x (List.mem_cons_of_mem e hx)) _
    | err er => rfl
    | panic msg => rfl

/-- The signature-bytes stage depends only on the part of the signature
header value after the first `=`. -/
theorem getHttpSigBytes_label (l ls r : String) (t ts : List (String × String))
    (hl : '=' ∉ l.data) (hls : '=' ∉ ls.data) :
    getHttpSigBytes (("signature", l ++ "=" ++ r) :: t) =
      getHttpSigBytes (("signature", ls ++ "=" ++ r) :: ts) := by
  simp only [getHttpSigBytes, findHeader_cons_eq, parseHttpSig_label _ _ hl,
    parseHttpSig_label _ _ hls]
  cases parseColonWrapped r.data with
  | error e => rfl
  | ok pr =>
    obtain ⟨sig, rest2⟩ := pr
    by_cases h : rest2 = [] <;> simp [h]

/-- The signature-key stage depends only on the part of the signature-key
header value after the first `=` (and on the shared JSON model). -/
theorem signatureKeyHeaderTryFrom_label (E : Ext) (l ls r v1 v1s v2 v2s : String)
    (hs : List (String × String)) (hl : '=' ∉ l.data) (hls : '=' ∉ ls.data) :
    signatureKeyHeaderTryFrom E
        (("signature", v1) :: ("signature-input", v2) ::
          ("signature-key", l ++ "=" ++ r) :: hs) =
      signatureKeyHeaderTryFrom E
        (("signature", v1s) :: ("signature-input", v2s) ::
          ("signature-key", ls ++ "=" ++ r) :: hs) := by
  have hne1 : ("signature" : String) ≠ "signature-key" := by decide
  have hne2 : ("signature-input" : String) ≠ "signature-key" := by decide
  simp only [signatureKeyHeaderTryFrom, findHeader_cons_ne _ _ hne1,
    findHeader_cons_ne _ _ hne2, findHeader_cons_eq, parseHttpSigKey,
    parseHttpSig_label _ _ hl, parseHttpSig_label _ _ hls]
  cases parseColonWrapped r.data with
  | error e => rfl
  | ok pr =>
    obtain ⟨sig, rest2⟩ := pr
    by_cases h : rest2 = [] <;> simp [h]

/-- The canonical-payload stage depends only on the parts of the three
signature header values after their first `=`, provided the component list
does not name one of the three signature headers. -/
theorem getHttpSigInputPayload_label (m p : String) (q : Option String)
    (hs : List (String × String)) (v1 v1s v3 v3s l2 l2s r2 : String)
    (hl2 : '=' ∉ l2.data) (hl2s : '=' ∉ l2s.data)
    (hsafe : ∀ n ps es, parseHttpSigInput (l2 ++ "=" ++ r2) = .ok (n, ps, es) →
      "signature" ∉ es ∧ "signature-input" ∉ es ∧ "signature-key" ∉ es) :
    getHttpSigInputPayload (mkSigReq m p q hs v1 (l2 ++ "=" ++ r2) v3)
        (mkSigReq m p q hs v1 (l2 ++ "=" ++ r2) v3).headers =
      getHttpSigInputPayload (mkSigReq m p q hs v1s (l2s ++ "=" ++ r2) v3s)
        (mkSigReq m p q hs v1s (l2s ++ "=" ++ r2) v3s).headers := by
  have hne1 : ("signature" : String) ≠ "signature-input" := by decide
  rw [getHttpSigInputPayload, getHttpSigInputPayload]
  simp only [mkSigReq, findHeader_cons_ne _ _ hne1, findHeader_cons_eq,
    parseHttpSigInput_label _ _ hl2, parseHttpSigInput_label _ _ hl2s]
  cases hq : parseSigParamsChars r2.data with
  | error e => rfl
  | ok elems =>
    have hp : parseHttpSigInput (l2 ++ "=" ++ r2) =
        .ok (l2, r2, elems.map String.mk) := by
      rw [parseHttpSigInput_label _ _ hl2, hq]
    obtain ⟨hn1, hn2, hn3⟩ := hsafe _ _ _ hp
    apply calculateHttpSigGo_congr
    intro e he
    have e1 : e ≠ "signature" := fun h => hn1 (h ▸ he)
    have e2 : e ≠ "signature-input" := fun h => hn2 (h ▸ he)
    have e3 : e ≠ "signature-key" := fun h => hn3 (h ▸ he)
    have := componentValue_skip_sig_headers m p q hs v1 v1s (l2 ++ "=" ++ r2)
      (l2s ++ "=" ++ r2) v3 v3s e e1 e2 e3
    simpa [mkSigReq] using this

/-- Claim C10 (amended): the verification outcome ignores the label text
before the first `=` in each of the three signature headers — the labels are
parsed and discarded, and no check compares them to one another — provided
the signed component list does not name one of the three signature headers
themselves (a component line would otherwise embed a header value containing
a label into the signed payload). Holds for every behaviour of the external
cryptographic primitives. -/
theorem verification_label_independent (E : Ext) (root : List Nat)
    (m p : String) (q : Option String) (hs : List (String × String))
    (l1 l1s l2 l2s l3 l3s r1 r2 r3 : String)
    (hl1 : '=' ∉ l1.data) (hl1s : '=' ∉ l1s.data)
    (hl2 : '=' ∉ l2.data) (hl2s : '=' ∉ l2s.data)
    (hl3 : '=' ∉ l3.data) (hl3s : '=' ∉ l3s.data)
    (hsafe : ∀ n ps es, parseHttpSigInput (l2 ++ "=" ++ r2) = .ok (n, ps, es) →
      "signature" ∉ es ∧ "signature-input" ∉ es ∧ "signature-key" ∉ es) :
    validateHttpSignatureHeaders E
        (mkSigReq m p q hs (l1 ++ "=" ++ r1) (l2 ++ "=" ++ r2) (l3 ++ "=" ++ r3)) root =
      validateHttpSignatureHeaders E
        (mkSigReq m p q hs (l1s ++ "=" ++ r1) (l2s ++ "=" ++ r2) (l3s ++ "=" ++ r3)) root := by
  have hA : getHttpSigBytes
      (mkSigReq m p q hs (l1 ++ "=" ++ r1) (l2 ++ "=" ++ r2) (l3 ++ "=" ++ r3)).headers =
      getHttpSigBytes
        (mkSigReq m p q hs (l1s ++ "=" ++ r1) (l2s ++ "=" ++ r2) (l3s ++ "=" ++ r3)).headers := by
    simp only [mkSigReq]
    exact getHttpSigBytes_label l1 l1s r1 _ _ hl1 hl1s
  have hB : signatureKeyHeaderTryFrom E
      (mkSigReq m p q hs (l1 ++ "=" ++ r1) (l2 ++ "=" ++ r2) (l3 ++ "=" ++ r3)).headers =
      signatureKeyHeaderTryFrom E
        (mkSigReq m p q hs (l1s ++ "=" ++ r1) (l2s ++ "=" ++ r2) (l3s ++ "=" ++ r3)).headers := by
    simp only [mkSigReq]
    exact signatureKeyHeaderTryFrom_label E l3 l3s r3 _ _ _ _ hs hl3 hl3s
  have hC := getHttpSigInputPayload_label m p q hs (l1 ++ "=" ++ r1)
    (l1s ++ "=" ++ r1) (l3 ++ "=" ++ r3) (l3s ++ "=" ++ r3) l2 l2s r2 hl2 hl2s hsafe
  rw [validateHttpSignatureHeaders, validateHttpSignatureHeaders, hA, hB, hC]

/-- Witness for the amended C10: relabelling all three signature headers of a
concrete request (labels `a`/`c`/`e` to `b`/`d`/`f`) leaves the verification
outcome unchanged. -/
theorem verification_label_independent_witness :
    validateHttpSignatureHeaders testExt
        (mkSigReq "get" "/x" none []
          ("a" ++ "=" ++ (":" ++ sigB64 ++ ":"))
          ("c" ++ "=" ++ "(\"@method\")")
          ("e" ++ "=" ++ ":AQ:")) [] =
      validateHttpSignatureHeaders testExt
        (mkSigReq "get" "/x" none []
          ("b" ++ "=" ++ (":" ++ sigB64 ++ ":"))
          ("d" ++ "=" ++ "(\"@method\")")
          ("f" ++ "=" ++ ":AQ:")) [] :=
  verification_label_independent testExt [] "get" "/x" none []
    "a" "b" "c" "d" "e" "f" (":" ++ sigB64 ++ ":") "(\"@method\")" ":AQ:"
    (by decide) (by decide) (by decide) (by decide) (by decide) (by decide)
    (by
      intro n ps es h
      rw [show parseHttpSigInput ("c" ++ "=" ++ "(\"@method\")") =
          .ok ("c", "(\"@method\")", ["@method"]) from by decide] at h
      cases h
      decide)

/-- Counterexample to C10 as stated: when the `signature-input` component list
names the `signature` header itself, the canonical payload embeds that
header's full value — label included — so two requests differing only in the
signature header's label (`sigA` vs `sigB`) produce different payloads, and a
verifier that accepts the signature over one payload rejects the other. -/
theorem verification_label_dependent_when_header_signed :
    getHttpSigInputPayload req10a req10a.headers ≠
      getHttpSigInputPayload req10b req10b.headers ∧
    validateHttpSignatureHeaders testExtC10 req10a rootKeyDer133 = .ok gDer ∧
    validateHttpSignatureHeaders testExtC10 req10b rootKeyDer133 =
      .err (.JwtSignatureVerificationFailed "signature error") := by decide

end HttpAuth
